import Mathlib

/-!
Verification development for the exoplanet classifier backend.

The program under study is a small HTTP service whose core is a
heuristic prediction function for exoplanet candidates.  The embedding
below translates that core faithfully:

* `mockPredict` embeds the scoring/explaining function of the backend:
  base class weights 0.33 / 0.33 / 0.34, three additive adjustment
  rules guarded by feature comparisons, normalization by the weight
  sum, argmax class selection via first-index-of-maximum, randomized
  per-feature importances sorted stably by descending absolute value,
  and a take-3 truncation.
* `predictHandler` embeds the request handler: shape check
  (missing body or length differing from 9), numeric check
  (a NaN produced by parseFloat on any element), then the predictor.
* `parseFloat` embeds the JavaScript string-to-number coercion used by
  the validator, over exact rationals: optional whitespace and sign,
  the Infinity keyword, decimal digits with optional fraction and
  exponent, longest-valid-prefix semantics, NaN on failure.  Binary
  floating point rounding/overflow of the host language is not
  modelled; all arithmetic is exact over ℚ, which is the precision at
  which the claims are stated.

Numbers are modelled by `JSNum` (a finite rational, an infinity, or
NaN) so that the host language's comparison semantics on non-finite
values are preserved.  The explainer's random source is modelled as an
explicit stream `rand : ℕ → ℚ` of draws, one per feature position,
each draw lying in [0, 1) as the host's random generator guarantees.
-/

/-- The nine fixed feature names, in their fixed order. -/
inductive FeatureName where
  | koi_period | koi_prad | koi_sma | koi_incl | koi_teq
  | koi_slogg | koi_srad | koi_smass | koi_steff
  deriving DecidableEq, Repr

/-- The three classification outcome labels, in enumeration order. -/
inductive ClassLabel where
  | confirmed | candidate | falsePositive
  deriving DecidableEq, Repr

/-- A host-language number: a finite value (exact rational), one of the
two infinities, or NaN. -/
inductive JSNum where
  | finite (q : ℚ) | posInf | negInf | nan
  deriving DecidableEq, Repr

/-- A raw element of the request payload: a JSON number (always finite)
or a string, given as its character list. -/
inductive JSValue where
  | num (q : ℚ) | str (cs : List Char)
  deriving DecidableEq, Repr

/-- The two validation error kinds of the handler. -/
inductive PredictError where
  | ShapeError | NotNumericError
  deriving DecidableEq, Repr

/-- Host-language strict less-than on numbers: any comparison involving
NaN is false, negative infinity is below every finite value and below
positive infinity, positive infinity is above every finite value. -/
def JSNum.ltB : JSNum → JSNum → Bool
  | .finite a, .finite b => decide (a < b)
  | .finite _, .posInf => true
  | .negInf, .finite _ => true
  | .negInf, .posInf => true
  | _, _ => false

/-- Host-language strict greater-than on numbers. -/
def JSNum.gtB (a b : JSNum) : Bool := JSNum.ltB b a

/-- Is this number NaN? -/
def JSNum.isNaN : JSNum → Bool
  | .nan => true
  | _ => false

/-- Whitespace characters skipped by the host string-to-number parse
(the common ASCII ones; exotic Unicode spaces are not modelled). -/
def jsWhitespace (c : Char) : Bool :=
  c == ' ' || c == '\t' || c == '\n' || c == '\r' || c == '\x0b' || c == '\x0c'

/-- Decimal digit test. -/
def isDigitCh (c : Char) : Bool := decide ('0' ≤ c) && decide (c ≤ '9')

/-- Numeric value of a decimal digit character. -/
def digitVal (c : Char) : ℕ := c.toNat - '0'.toNat

/-- Value of a decimal digit string. -/
def digitsToNat (ds : List Char) : ℕ :=
  ds.foldl (fun acc c => 10 * acc + digitVal c) 0

/-- Consume an optional leading sign; return whether it was a minus
sign, and the rest. -/
def parseSign : List Char → Bool × List Char
  | '-' :: rest => (true, rest)
  | '+' :: rest => (false, rest)
  | cs => (false, cs)

/-- The characters of the Infinity keyword. -/
def infinityChars : List Char := [ 'I', 'n', 'f', 'i', 'n', 'i', 't', 'y' ]

/-- Value of an optionally signed digit string; 0 when there are no
digits (then the exponent marker is not part of the parsed prefix). -/
def signedDigitsVal (cs : List Char) : ℤ :=
  let s := parseSign cs
  let ds := s.2.takeWhile isDigitCh
  if ds.isEmpty then 0
  else if s.1 then -(digitsToNat ds : ℤ) else (digitsToNat ds : ℤ)

/-- Value of an exponent part, 0 when absent or not well formed. -/
def expValue : List Char → ℤ
  | 'e' :: rest => signedDigitsVal rest
  | 'E' :: rest => signedDigitsVal rest
  | _ => 0

/-- Host string-to-number coercion over exact rationals: skip leading
whitespace, read an optional sign, accept the Infinity keyword or a
decimal literal (integer digits, optional fraction, optional exponent),
ignore any trailing characters, and yield NaN when no prefix parses. -/
def parseFloatChars (cs0 : List Char) : JSNum :=
  let cs := cs0.dropWhile jsWhitespace
  let s := parseSign cs
  let neg := s.1
  let cs := s.2
  if cs.take 8 = infinityChars then
    if neg then JSNum.negInf else JSNum.posInf
  else
    let intDs := cs.takeWhile isDigitCh
    let cs1 := cs.dropWhile isDigitCh
    let fr : List Char × List Char :=
      match cs1 with
      | '.' :: rest => (rest.takeWhile isDigitCh, rest.dropWhile isDigitCh)
      | _ => ([], cs1)
    let fracDs := fr.1
    let cs2 := fr.2
    if intDs.isEmpty && fracDs.isEmpty then JSNum.nan
    else
      let e := expValue cs2
      let mant : ℚ :=
        (digitsToNat intDs : ℚ) + (digitsToNat fracDs : ℚ) / 10 ^ fracDs.length
      let v := mant * (10 : ℚ) ^ e
      JSNum.finite (if neg then -v else v)

/-- The coercion applied by the validator to each raw element.  A JSON
number converts to itself (the host's number-to-string-to-number round
trip is the identity on finite values); a string goes through the
string parse. -/
def parseFloat : JSValue → JSNum
  | .num q => .finite q
  | .str cs => parseFloatChars cs

/-- The fixed feature-name array of the predictor. -/
def featureNames : List FeatureName :=
  [ FeatureName.koi_period, FeatureName.koi_prad, FeatureName.koi_sma,
    FeatureName.koi_incl, FeatureName.koi_teq, FeatureName.koi_slogg,
    FeatureName.koi_srad, FeatureName.koi_smass, FeatureName.koi_steff ]

/-- One entry of the mock SHAP output: feature name, signed importance,
the raw input value, and (for reasoning about stability) the position
the entry was generated at.  The position determines the name, so this
ghost field adds no information beyond the source object. -/
structure Contribution where
  feature : FeatureName
  importance : ℚ
  value : JSNum
  idx : ℕ
  deriving DecidableEq, Repr

/-- The probability object of the response, one field per class. -/
structure Probabilities where
  confirmed : ℚ
  candidate : ℚ
  falsePositive : ℚ
  deriving DecidableEq, Repr

/-- The response aggregate of the predictor. -/
structure Prediction where
  predicted_class : ClassLabel
  probabilities : Probabilities
  top_features : List Contribution
  deriving DecidableEq, Repr

/-- The comparator ordering used on contributions: by weakly descending
absolute importance.  This is the ordering realized by the source's
stable sort with comparator abs(b.importance) - abs(a.importance). -/
def contribGE (a b : Contribution) : Prop := |a.importance| ≥ |b.importance|

instance : DecidableRel contribGE :=
  fun a b => inferInstanceAs (Decidable (|b.importance| ≤ |a.importance|))

instance : IsTotal Contribution contribGE :=
  ⟨fun a b => (le_total |b.importance| |a.importance|).imp id id⟩

instance : IsTrans Contribution contribGE :=
  ⟨fun _ _ _ h1 h2 => le_trans h2 h1⟩

/-- The per-feature importance entries: for each feature position, the
name at that position, an importance of (draw - 0.5) * 2 from the
random stream, and the raw value. -/
def shapValues (features : List JSNum) (rand : ℕ → ℚ) : List Contribution :=
  features.enum.map (fun p =>
    { feature := featureNames.getD p.1 FeatureName.koi_period
      importance := (rand p.1 - 0.5) * 2
      value := p.2
      idx := p.1 })

/-- The source's stable sort by descending absolute importance. -/
def sortByAbsDesc (l : List Contribution) : List Contribution :=
  List.insertionSort contribGE l

/-- The fixed label array of the predictor, in enumeration order. -/
def labelsList : List ClassLabel :=
  [ ClassLabel.confirmed, ClassLabel.candidate, ClassLabel.falsePositive ]

/-- The heuristic predictor: destructure the features, apply the three
additive weight rules, normalize, select the label at the first index
achieving the maximal probability, and attach the top three
contributions by descending absolute importance.  The out-of-bounds
defaults of getD are never reached on the 9-element inputs the handler
passes (and the index into the label array is always 0, 1 or 2). -/
def mockPredict (features : List JSNum) (rand : ℕ → ℚ) : Prediction :=
  let koi_period := features.getD 0 JSNum.nan
  let koi_prad := features.getD 1 JSNum.nan
  let koi_teq := features.getD 4 JSNum.nan
  let confirmedProb : ℚ := 0.33
  let candidateProb : ℚ := 0.33
  let falsePositiveProb : ℚ := 0.34
  let confirmedProb :=
    if koi_prad.gtB (JSNum.finite 0.5) && koi_prad.ltB (JSNum.finite 4) &&
        koi_teq.gtB (JSNum.finite 200) && koi_teq.ltB (JSNum.finite 400) then
      confirmedProb + 0.2
    else confirmedProb
  let falsePositiveProb :=
    if koi_prad.gtB (JSNum.finite 10) then falsePositiveProb + 0.3
    else falsePositiveProb
  let falsePositiveProb :=
    if koi_period.ltB (JSNum.finite 1) then falsePositiveProb + 0.2
    else falsePositiveProb
  let total := confirmedProb + candidateProb + falsePositiveProb
  let confirmedProb := confirmedProb / total
  let candidateProb := candidateProb / total
  let falsePositiveProb := falsePositiveProb / total
  let probabilities := [ confirmedProb, candidateProb, falsePositiveProb ]
  let maxIndex :=
    probabilities.indexOf (max confirmedProb (max candidateProb falsePositiveProb))
  let predictedLabel := labelsList.getD maxIndex ClassLabel.confirmed
  let topFeatures := (sortByAbsDesc (shapValues features rand)).take 3
  { predicted_class := predictedLabel
    probabilities :=
      { confirmed := confirmedProb
        candidate := candidateProb
        falsePositive := falsePositiveProb }
    top_features := topFeatures }

/-- The request handler: a missing features field or a length other
than 9 is a shape error; an element whose coercion is NaN is a
non-numeric error; otherwise the predictor runs on the coerced
features. -/
def predictHandler (features : Option (List JSValue)) (rand : ℕ → ℚ) :
    Except PredictError Prediction :=
  match features with
  | none => Except.error PredictError.ShapeError
  | some fs =>
    if fs.length ≠ 9 then Except.error PredictError.ShapeError
    else
      let numericFeatures := fs.map parseFloat
      if numericFeatures.any JSNum.isNaN then
        Except.error PredictError.NotNumericError
      else Except.ok (mockPredict numericFeatures rand)

/-- A 9-element feature vector of finite values, in the fixed order. -/
def mkFeatures (p1 p2 p3 p4 p5 p6 p7 p8 p9 : ℚ) : List JSNum :=
  [ JSNum.finite p1, JSNum.finite p2, JSNum.finite p3, JSNum.finite p4,
    JSNum.finite p5, JSNum.finite p6, JSNum.finite p7, JSNum.finite p8,
    JSNum.finite p9 ]

/-- Spec-side formula: the unnormalized Confirmed weight, 0.33 plus a
0.20 bonus when the planet radius lies in (0.5, 4) and the equilibrium
temperature in (200, 400). -/
def specConfirmedWeight (prad teq : ℚ) : ℚ :=
  0.33 + (if ((0.5 < prad ∧ prad < 4) ∧ 200 < teq) ∧ teq < 400 then 0.2 else 0)

/-- Spec-side formula: the unnormalized Candidate weight, always 0.33. -/
def specCandidateWeight : ℚ := 0.33

/-- Spec-side formula: the unnormalized FalsePositive weight, 0.34 plus
an additive 0.30 bonus when the radius exceeds 10 and an additive 0.20
bonus when the orbital period is below 1. -/
def specFalsePositiveWeight (period prad : ℚ) : ℚ :=
  0.34 + (if 10 < prad then 0.3 else 0) + (if period < 1 then 0.2 else 0)

/-- Spec-side formula: the sum of the three unnormalized weights. -/
def specTotal (period prad teq : ℚ) : ℚ :=
  specConfirmedWeight prad teq + specCandidateWeight + specFalsePositiveWeight period prad

/-- Spec-side selection rule: the first class, in the fixed enumeration
order Confirmed, Candidate, FalsePositive, whose probability attains
the maximum of the three. -/
def specFirstMax (c ca fp : ℚ) : ClassLabel :=
  if ca ≤ c ∧ fp ≤ c then ClassLabel.confirmed
  else if fp ≤ ca then ClassLabel.candidate
  else ClassLabel.falsePositive

/-- The probability a distribution assigns to a class. -/
def classProb (pr : Probabilities) : ClassLabel → ℚ
  | .confirmed => pr.confirmed
  | .candidate => pr.candidate
  | .falsePositive => pr.falsePositive

/-- The strict ordering realized by a stable descending-absolute-value
sort of distinctly indexed entries: either strictly larger magnitude,
or equal magnitude with the smaller original position. -/
def stRel (a b : Contribution) : Prop :=
  |a.importance| > |b.importance| ∨
    (|a.importance| = |b.importance| ∧ a.idx < b.idx)

/-- A concrete draw sequence of the random source: every draw is 0,
the smallest value the host's random generator can return. -/
def rand0 : ℕ → ℚ := fun _ => 0

/-- The valid example input of the spec's rule-trigger scenarios. -/
def exampleFeatures : List JSNum := mkFeatures 10 2 0.1 85 300 4.5 1 1 5500

/-- A raw request whose first element is the string abc and whose other
eight elements are numbers. -/
def exampleAbcInput : List JSValue :=
  [ JSValue.str [ 'a', 'b', 'c' ], JSValue.num 2, JSValue.num 0.1,
    JSValue.num 85, JSValue.num 300, JSValue.num 4.5, JSValue.num 1,
    JSValue.num 1, JSValue.num 5500 ]

/-- A raw request whose first element is the string Infinity and whose
other eight elements are numbers. -/
def exampleInfinityInput : List JSValue :=
  [ JSValue.str infinityChars, JSValue.num 2, JSValue.num 0.1,
    JSValue.num 85, JSValue.num 300, JSValue.num 4.5, JSValue.num 1,
    JSValue.num 1, JSValue.num 5500 ]

/-- A raw request with only eight elements. -/
def exampleEightInput : List JSValue :=
  [ JSValue.num 2, JSValue.num 0.1, JSValue.num 85, JSValue.num 300,
    JSValue.num 4.5, JSValue.num 1, JSValue.num 1, JSValue.num 5500 ]

/-- An all-numeric raw request matching the example feature vector. -/
def exampleNineInput : List JSValue :=
  [ JSValue.num 10, JSValue.num 2, JSValue.num 0.1, JSValue.num 85,
    JSValue.num 300, JSValue.num 4.5, JSValue.num 1, JSValue.num 1,
    JSValue.num 5500 ]

/-- A throwaway contribution used as a lookup default. -/
def defaultContribution : Contribution :=
  { feature := FeatureName.koi_period, importance := 0,
    value := JSNum.nan, idx := 0 }

/-- The first entry the explainer produces on the example input under
the all-zero draw sequence. -/
def exampleTopContribution : Contribution :=
  { feature := FeatureName.koi_period, importance := -1,
    value := JSNum.finite 10, idx := 0 }

lemma mkFeatures_getD_zero (p1 p2 p3 p4 p5 p6 p7 p8 p9 : ℚ) :
    (mkFeatures p1 p2 p3 p4 p5 p6 p7 p8 p9).getD 0 JSNum.nan = JSNum.finite p1 := rfl

lemma mkFeatures_getD_one (p1 p2 p3 p4 p5 p6 p7 p8 p9 : ℚ) :
    (mkFeatures p1 p2 p3 p4 p5 p6 p7 p8 p9).getD 1 JSNum.nan = JSNum.finite p2 := rfl

lemma mkFeatures_getD_four (p1 p2 p3 p4 p5 p6 p7 p8 p9 : ℚ) :
    (mkFeatures p1 p2 p3 p4 p5 p6 p7 p8 p9).getD 4 JSNum.nan = JSNum.finite p5 := rfl

lemma gtB_finite (a b : ℚ) : JSNum.gtB (JSNum.finite a) (JSNum.finite b) = decide (b < a) := rfl

lemma ltB_finite (a b : ℚ) : JSNum.ltB (JSNum.finite a) (JSNum.finite b) = decide (a < b) := rfl

lemma mockPredict_probabilities_eq (p1 p2 p3 p4 p5 p6 p7 p8 p9 : ℚ) (rand : ℕ → ℚ) :
    (mockPredict (mkFeatures p1 p2 p3 p4 p5 p6 p7 p8 p9) rand).probabilities
      = { confirmed := specConfirmedWeight p2 p5 / specTotal p1 p2 p5
          candidate := specCandidateWeight / specTotal p1 p2 p5
          falsePositive := specFalsePositiveWeight p1 p2 / specTotal p1 p2 p5 } := by
  simp only [mockPredict, mkFeatures_getD_zero, mkFeatures_getD_one, mkFeatures_getD_four,
    gtB_finite, ltB_finite, Bool.and_eq_true, decide_eq_true_eq,
    specConfirmedWeight, specCandidateWeight, specFalsePositiveWeight, specTotal]
  split_ifs <;> norm_num

lemma not_max_lt {c ca fp : ℚ} (hA : ¬ (ca ≤ c ∧ fp ≤ c)) : c < max ca fp := by
  rcases not_and_or.mp hA with h | h
  · exact lt_of_lt_of_le (not_le.mp h) (le_max_left _ _)
  · exact lt_of_lt_of_le (not_le.mp h) (le_max_right _ _)

lemma argmax_getD (c ca fp : ℚ) :
    labelsList.getD (List.indexOf (max c (max ca fp)) [ c, ca, fp ]) ClassLabel.confirmed
      = specFirstMax c ca fp := by
  unfold specFirstMax
  by_cases hA : ca ≤ c ∧ fp ≤ c
  · rw [if_pos hA, max_eq_left (max_le hA.1 hA.2), List.indexOf_cons_self]
    rfl
  · have hlt : c < max ca fp := not_max_lt hA
    rw [if_neg hA, max_eq_right hlt.le]
    by_cases hB : fp ≤ ca
    · have hm2 : max ca fp = ca := max_eq_left hB
      rw [if_pos hB, hm2]
      rw [List.indexOf_cons_ne _ (ne_of_lt (hm2 ▸ hlt)), List.indexOf_cons_self]
      rfl
    · have hfp : ca < fp := not_le.mp hB
      have hm2 : max ca fp = fp := max_eq_right hfp.le
      rw [if_neg hB, hm2]
      rw [List.indexOf_cons_ne _ (ne_of_lt (hm2 ▸ hlt)),
        List.indexOf_cons_ne _ (ne_of_lt hfp), List.indexOf_cons_self]
      rfl

lemma classProb_specFirstMax (c ca fp : ℚ) :
    classProb { confirmed := c, candidate := ca, falsePositive := fp }
        (specFirstMax c ca fp)
      = max c (max ca fp) := by
  unfold specFirstMax
  by_cases hA : ca ≤ c ∧ fp ≤ c
  · rw [if_pos hA]
    show c = _
    rw [max_eq_left (max_le hA.1 hA.2)]
  · have hlt : c < max ca fp := not_max_lt hA
    rw [if_neg hA]
    by_cases hB : fp ≤ ca
    · rw [if_pos hB]
      show ca = _
      rw [max_eq_right hlt.le, max_eq_left hB]
    · rw [if_neg hB]
      show fp = _
      rw [max_eq_right hlt.le, max_eq_right (not_le.mp hB).le]

lemma predicted_class_eq (features : List JSNum) (rand : ℕ → ℚ) :
    (mockPredict features rand).predicted_class
      = specFirstMax (mockPredict features rand).probabilities.confirmed
          (mockPredict features rand).probabilities.candidate
          (mockPredict features rand).probabilities.falsePositive :=
  argmax_getD _ _ _

lemma classProb_predicted (features : List JSNum) (rand : ℕ → ℚ) :
    classProb (mockPredict features rand).probabilities
        (mockPredict features rand).predicted_class
      = max (mockPredict features rand).probabilities.confirmed
          (max (mockPredict features rand).probabilities.candidate
            (mockPredict features rand).probabilities.falsePositive) := by
  rw [predicted_class_eq]
  exact classProb_specFirstMax _ _ _

lemma specConfirmedWeight_pos (prad teq : ℚ) : 0 < specConfirmedWeight prad teq := by
  unfold specConfirmedWeight; split_ifs <;> norm_num

lemma specCandidateWeight_pos : (0:ℚ) < specCandidateWeight := by
  norm_num [specCandidateWeight]

lemma specFalsePositiveWeight_pos (period prad : ℚ) :
    0 < specFalsePositiveWeight period prad := by
  unfold specFalsePositiveWeight; split_ifs <;> norm_num

lemma specTotal_pos (period prad teq : ℚ) : 0 < specTotal period prad teq := by
  have h1 := specConfirmedWeight_pos prad teq
  have h2 := specCandidateWeight_pos
  have h3 := specFalsePositiveWeight_pos period prad
  unfold specTotal
  linarith

lemma specCandidate_lt_specFalsePositive (period prad : ℚ) :
    specCandidateWeight < specFalsePositiveWeight period prad := by
  unfold specCandidateWeight specFalsePositiveWeight
  split_ifs <;> norm_num

lemma shapValues_idx_pairwise (features : List JSNum) (rand : ℕ → ℚ) :
    (shapValues features rand).Pairwise (fun a b => a.idx < b.idx) := by
  unfold shapValues
  rw [List.pairwise_map]
  have h1 : (features.enum.map Prod.fst).Pairwise (· < ·) := by
    rw [List.enum_map_fst]; exact List.pairwise_lt_range _
  exact (List.pairwise_map.mp h1).imp (fun h => h)

lemma orderedInsert_stRel {x : Contribution} {l : List Contribution}
    (hl : l.Pairwise stRel) (hx : ∀ y ∈ l, x.idx < y.idx) :
    (List.orderedInsert contribGE x l).Pairwise stRel := by
  induction l with
  | nil => simp
  | cons y ys ih =>
    by_cases hxy : contribGE x y
    · rw [List.orderedInsert, if_pos hxy]
      refine List.Pairwise.cons ?_ hl
      intro z hz
      have hxy' : |y.importance| ≤ |x.importance| := hxy
      rcases List.mem_cons.mp hz with rfl | hz'
      · rcases lt_or_eq_of_le hxy' with h | h
        · exact Or.inl h
        · exact Or.inr ⟨h.symm, hx z (List.mem_cons_self _ _)⟩
      · rcases (List.pairwise_cons.mp hl).1 z hz' with h | ⟨heq, _⟩
        · exact Or.inl (lt_of_lt_of_le h hxy')
        · rcases lt_or_eq_of_le (heq ▸ hxy') with h2 | h2
          · exact Or.inl h2
          · exact Or.inr ⟨h2.symm, hx z (List.mem_cons_of_mem _ hz')⟩
    · rw [List.orderedInsert, if_neg hxy]
      refine List.Pairwise.cons ?_
        (ih (List.Pairwise.of_cons hl) (fun z hz => hx z (List.mem_cons_of_mem _ hz)))
      intro z hz
      rcases (List.mem_orderedInsert contribGE).mp hz with rfl | hz'
      · exact Or.inl (not_le.mp hxy)
      · exact (List.pairwise_cons.mp hl).1 z hz'

lemma insertionSort_stRel {l : List Contribution}
    (h : l.Pairwise (fun a b => a.idx < b.idx)) :
    (sortByAbsDesc l).Pairwise stRel := by
  unfold sortByAbsDesc
  induction l with
  | nil => simp
  | cons x xs ih =>
    simp only [List.insertionSort]
    apply orderedInsert_stRel (ih (List.Pairwise.of_cons h))
    intro y hy
    exact (List.pairwise_cons.mp h).1 y
      (((List.perm_insertionSort contribGE xs).mem_iff).mp hy)

lemma mem_shapValues {features : List JSNum} {rand : ℕ → ℚ} {c : Contribution}
    (hc : c ∈ shapValues features rand) :
    c.idx < features.length
      ∧ c.feature = featureNames.getD c.idx FeatureName.koi_period
      ∧ c.value = features.getD c.idx JSNum.nan
      ∧ c.importance = (rand c.idx - 0.5) * 2 := by
  unfold shapValues at hc
  rcases List.mem_map.mp hc with ⟨p, hp, rfl⟩
  have h2 : features[p.1]? = some p.2 := List.mem_enum_iff_getElem?.mp hp
  rcases List.getElem?_eq_some.mp h2 with ⟨hlt, hval⟩
  refine ⟨hlt, rfl, ?_, rfl⟩
  show p.2 = _
  rw [List.getD_eq_getElem?_getD, h2]
  rfl

/-- C1: on every valid 9-element numeric feature vector the predictor's
probabilities are exactly the three unnormalized weights (0.33 / 0.33 /
0.34 bases plus the three independent additive rule bonuses) divided by
their sum. -/
theorem c1_scorer_weights (p1 p2 p3 p4 p5 p6 p7 p8 p9 : ℚ) (rand : ℕ → ℚ) :
    (mockPredict (mkFeatures p1 p2 p3 p4 p5 p6 p7 p8 p9) rand).probabilities
      = { confirmed := specConfirmedWeight p2 p5 / specTotal p1 p2 p5
          candidate := specCandidateWeight / specTotal p1 p2 p5
          falsePositive := specFalsePositiveWeight p1 p2 / specTotal p1 p2 p5 } :=
  mockPredict_probabilities_eq p1 p2 p3 p4 p5 p6 p7 p8 p9 rand

/-- C2: the predicted class is the class with the maximum returned
probability, and on exact ties the first such class in the enumeration
order Confirmed, Candidate, FalsePositive. -/
theorem c2_argmax_first (p1 p2 p3 p4 p5 p6 p7 p8 p9 : ℚ) (rand : ℕ → ℚ) :
    (mockPredict (mkFeatures p1 p2 p3 p4 p5 p6 p7 p8 p9) rand).predicted_class
        = specFirstMax
            (mockPredict (mkFeatures p1 p2 p3 p4 p5 p6 p7 p8 p9) rand).probabilities.confirmed
            (mockPredict (mkFeatures p1 p2 p3 p4 p5 p6 p7 p8 p9) rand).probabilities.candidate
            (mockPredict (mkFeatures p1 p2 p3 p4 p5 p6 p7 p8 p9) rand).probabilities.falsePositive
      ∧ classProb (mockPredict (mkFeatures p1 p2 p3 p4 p5 p6 p7 p8 p9) rand).probabilities
            (mockPredict (mkFeatures p1 p2 p3 p4 p5 p6 p7 p8 p9) rand).predicted_class
          = max (mockPredict (mkFeatures p1 p2 p3 p4 p5 p6 p7 p8 p9) rand).probabilities.confirmed
              (max (mockPredict (mkFeatures p1 p2 p3 p4 p5 p6 p7 p8 p9) rand).probabilities.candidate
                (mockPredict (mkFeatures p1 p2 p3 p4 p5 p6 p7 p8 p9) rand).probabilities.falsePositive) :=
  ⟨predicted_class_eq _ _, classProb_predicted _ _⟩

/-- C3: each returned probability lies in the unit interval and the
three sum to exactly 1 over exact rationals. -/
theorem c3_distribution (p1 p2 p3 p4 p5 p6 p7 p8 p9 : ℚ) (rand : ℕ → ℚ) :
    0 ≤ (mockPredict (mkFeatures p1 p2 p3 p4 p5 p6 p7 p8 p9) rand).probabilities.confirmed
      ∧ (mockPredict (mkFeatures p1 p2 p3 p4 p5 p6 p7 p8 p9) rand).probabilities.confirmed ≤ 1
      ∧ 0 ≤ (mockPredict (mkFeatures p1 p2 p3 p4 p5 p6 p7 p8 p9) rand).probabilities.candidate
      ∧ (mockPredict (mkFeatures p1 p2 p3 p4 p5 p6 p7 p8 p9) rand).probabilities.candidate ≤ 1
      ∧ 0 ≤ (mockPredict (mkFeatures p1 p2 p3 p4 p5 p6 p7 p8 p9) rand).probabilities.falsePositive
      ∧ (mockPredict (mkFeatures p1 p2 p3 p4 p5 p6 p7 p8 p9) rand).probabilities.falsePositive ≤ 1
      ∧ (mockPredict (mkFeatures p1 p2 p3 p4 p5 p6 p7 p8 p9) rand).probabilities.confirmed
          + (mockPredict (mkFeatures p1 p2 p3 p4 p5 p6 p7 p8 p9) rand).probabilities.candidate
          + (mockPredict (mkFeatures p1 p2 p3 p4 p5 p6 p7 p8 p9) rand).probabilities.falsePositive
        = 1 := by
  rw [mockPredict_probabilities_eq]
  have hT := specTotal_pos p1 p2 p5
  have hC := specConfirmedWeight_pos p2 p5
  have hCa := specCandidateWeight_pos
  have hF := specFalsePositiveWeight_pos p1 p2
  have hsum : specConfirmedWeight p2 p5 + specCandidateWeight
      + specFalsePositiveWeight p1 p2 = specTotal p1 p2 p5 := rfl
  refine ⟨div_nonneg hC.le hT.le, ?_, div_nonneg hCa.le hT.le, ?_,
    div_nonneg hF.le hT.le, ?_, ?_⟩
  · rw [div_le_one hT]; linarith
  · rw [div_le_one hT]; linarith
  · rw [div_le_one hT]; linarith
  · show specConfirmedWeight p2 p5 / specTotal p1 p2 p5 + _ + _ = 1
    rw [div_add_div_same, div_add_div_same, hsum, div_self hT.ne']

/-- C8: the scorer is deterministic; the random source consumed by the
explainer influences neither the predicted class nor the probability
distribution. -/
theorem c8_scorer_deterministic (features : List JSNum) (r1 r2 : ℕ → ℚ) :
    (mockPredict features r1).predicted_class = (mockPredict features r2).predicted_class
      ∧ (mockPredict features r1).probabilities = (mockPredict features r2).probabilities :=
  ⟨rfl, rfl⟩

/-- C10: the predicted class is never Candidate on a valid input: the
Candidate weight stays at 0.33 while the FalsePositive weight is at
least 0.34, so Candidate never attains the maximum probability. -/
theorem c10_never_candidate (p1 p2 p3 p4 p5 p6 p7 p8 p9 : ℚ) (rand : ℕ → ℚ) :
    (mockPredict (mkFeatures p1 p2 p3 p4 p5 p6 p7 p8 p9) rand).predicted_class
      ≠ ClassLabel.candidate := by
  rw [predicted_class_eq, mockPredict_probabilities_eq]
  have hT := specTotal_pos p1 p2 p5
  have hw := specCandidate_lt_specFalsePositive p1 p2
  have hdiv : specCandidateWeight / specTotal p1 p2 p5
      < specFalsePositiveWeight p1 p2 / specTotal p1 p2 p5 :=
    div_lt_div_of_pos_right hw hT
  unfold specFirstMax
  split_ifs with h1 h2
  · simp
  · exact absurd h2 (not_le.mpr hdiv)
  · simp

/-- C6: for every valid input and every draw the top-features list has
length 3 = min(topK, 9); it is sorted by weakly descending absolute
importance, equal magnitudes keeping the original feature order; and a
slice of any length k of the sorted contributions has length min k 9,
so a topK exceeding 9 would return all 9 entries without error. -/
theorem c6_top_features (p1 p2 p3 p4 p5 p6 p7 p8 p9 : ℚ) (rand : ℕ → ℚ) :
    (mockPredict (mkFeatures p1 p2 p3 p4 p5 p6 p7 p8 p9) rand).top_features.length = 3
      ∧ (mockPredict (mkFeatures p1 p2 p3 p4 p5 p6 p7 p8 p9) rand).top_features.Pairwise contribGE
      ∧ (mockPredict (mkFeatures p1 p2 p3 p4 p5 p6 p7 p8 p9) rand).top_features.Pairwise stRel
      ∧ ∀ k : ℕ,
          ((sortByAbsDesc (shapValues (mkFeatures p1 p2 p3 p4 p5 p6 p7 p8 p9) rand)).take k).length
            = min k 9 := by
  have htf : (mockPredict (mkFeatures p1 p2 p3 p4 p5 p6 p7 p8 p9) rand).top_features
      = (sortByAbsDesc (shapValues (mkFeatures p1 p2 p3 p4 p5 p6 p7 p8 p9) rand)).take 3 := rfl
  have hlen : (sortByAbsDesc (shapValues (mkFeatures p1 p2 p3 p4 p5 p6 p7 p8 p9) rand)).length = 9 := by
    rw [sortByAbsDesc, (List.perm_insertionSort contribGE _).length_eq]
    simp [shapValues, mkFeatures]
  refine ⟨?_, ?_, ?_, ?_⟩
  · rw [htf, List.length_take, hlen]
    rfl
  · rw [htf]
    exact List.Pairwise.sublist (List.take_sublist _ _)
      (List.sorted_insertionSort contribGE _)
  · rw [htf]
    exact List.Pairwise.sublist (List.take_sublist _ _)
      (insertionSort_stRel (shapValues_idx_pairwise _ _))
  · intro k
    rw [List.length_take, hlen]

/-- C9: every entry of the top-features list carries the feature name
of its original position in the fixed order and the untouched input
value at that same position. -/
theorem c9_entries (p1 p2 p3 p4 p5 p6 p7 p8 p9 : ℚ) (rand : ℕ → ℚ) (c : Contribution)
    (hc : c ∈ (mockPredict (mkFeatures p1 p2 p3 p4 p5 p6 p7 p8 p9) rand).top_features) :
    c.idx < 9
      ∧ c.feature = featureNames.getD c.idx FeatureName.koi_period
      ∧ c.value = (mkFeatures p1 p2 p3 p4 p5 p6 p7 p8 p9).getD c.idx JSNum.nan := by
  have h1 : c ∈ shapValues (mkFeatures p1 p2 p3 p4 p5 p6 p7 p8 p9) rand := by
    have h2 : c ∈ sortByAbsDesc (shapValues (mkFeatures p1 p2 p3 p4 p5 p6 p7 p8 p9) rand) :=
      (List.take_sublist 3 _).subset hc
    exact ((List.perm_insertionSort contribGE _).mem_iff).mp h2
  obtain ⟨hi, hf, hv, -⟩ := mem_shapValues h1
  exact ⟨hi, hf, hv⟩

/-- Witness for C9 at the spec's example input and the all-zero draw:
the first returned entry is the period feature with its input value. -/
theorem c9_entries_witness :
    exampleTopContribution.idx < 9
      ∧ exampleTopContribution.feature
          = featureNames.getD exampleTopContribution.idx FeatureName.koi_period
      ∧ exampleTopContribution.value
          = (mkFeatures 10 2 0.1 85 300 4.5 1 1 5500).getD exampleTopContribution.idx JSNum.nan :=
  c9_entries 10 2 0.1 85 300 4.5 1 1 5500 rand0 _ (by
    norm_num [exampleTopContribution, mockPredict, shapValues, sortByAbsDesc,
      List.insertionSort, List.orderedInsert, contribGE, rand0, mkFeatures,
      List.enum, List.enumFrom, featureNames])

/-- C7 counterexample: the random source may return exactly 0, a legal
draw, and then the generated importance is exactly -1, which does not
lie strictly inside the open interval (-1, 1). -/
theorem c7_counterexample :
    (0:ℚ) ≤ 0 ∧ (0:ℚ) < 1
      ∧ ((shapValues exampleFeatures rand0).getD 0 defaultContribution).importance = -1
      ∧ ¬ (-1 < ((shapValues exampleFeatures rand0).getD 0 defaultContribution).importance) := by
  have h : ((shapValues exampleFeatures rand0).getD 0 defaultContribution).importance = -1 := by
    norm_num [shapValues, exampleFeatures, mkFeatures, List.enum, List.enumFrom, rand0,
      featureNames]
  exact ⟨le_refl 0, zero_lt_one, h, by rw [h]; exact lt_irrefl (-1)⟩

/-- C7 amended: with every draw of the random source in [0, 1), each
generated importance value lies in the half-open interval [-1, 1); the
lower endpoint -1 is attained when a draw is exactly 0. -/
theorem c7_importance_range (features : List JSNum) (rand : ℕ → ℚ)
    (h : ∀ i, 0 ≤ rand i ∧ rand i < 1) (c : Contribution)
    (hc : c ∈ shapValues features rand) :
    -1 ≤ c.importance ∧ c.importance < 1 := by
  obtain ⟨-, -, -, himp⟩ := mem_shapValues hc
  obtain ⟨h1, h2⟩ := h c.idx
  rw [himp]
  constructor <;> nlinarith

/-- Witness for C7 at the example input and the all-zero draw. -/
theorem c7_importance_range_witness :
    -1 ≤ exampleTopContribution.importance ∧ exampleTopContribution.importance < 1 :=
  c7_importance_range exampleFeatures rand0
    (fun _ => ⟨le_refl 0, zero_lt_one⟩) _
    (by norm_num [exampleTopContribution, shapValues, exampleFeatures, mkFeatures,
      List.enum, List.enumFrom, rand0, featureNames])

/-- C4 counterexample: the string Infinity parses to positive infinity,
not NaN and not a finite number, yet the handler accepts the request
and returns a successful prediction, so an element that cannot be
parsed to a finite number is accepted. -/
theorem c4_counterexample :
    parseFloat (JSValue.str infinityChars) = JSNum.posInf
      ∧ predictHandler (some exampleInfinityInput) rand0
          = Except.ok (mockPredict (exampleInfinityInput.map parseFloat) rand0)
      ∧ (predictHandler (some exampleInfinityInput) rand0).isOk = true :=
  ⟨rfl, rfl, rfl⟩

/-- C4 amended: on a 9-element input, validation fails with
NotNumericError exactly when some element parses to NaN; empty or
blank strings and non-numeric tokens such as abc do parse to NaN and
are rejected, but elements parsing to a non-finite infinity are
accepted. -/
theorem c4_not_numeric_iff_nan (fs : List JSValue) (rand : ℕ → ℚ)
    (h : fs.length = 9) :
    (predictHandler (some fs) rand = Except.error PredictError.NotNumericError
        ↔ (fs.map parseFloat).any JSNum.isNaN = true)
      ∧ parseFloatChars [] = JSNum.nan
      ∧ parseFloatChars [ ' ' ] = JSNum.nan
      ∧ parseFloatChars [ 'a', 'b', 'c' ] = JSNum.nan := by
  refine ⟨?_, rfl, rfl, rfl⟩
  simp only [predictHandler]
  rw [if_neg (by omega : ¬ fs.length ≠ 9)]
  by_cases hn : (fs.map parseFloat).any JSNum.isNaN = true
  · rw [if_pos hn]
    simp [hn]
  · rw [if_neg hn]
    simp [hn]

/-- Witness for C4 at the spec's abc example request. -/
theorem c4_not_numeric_iff_nan_witness :
    (predictHandler (some exampleAbcInput) rand0 = Except.error PredictError.NotNumericError
        ↔ (exampleAbcInput.map parseFloat).any JSNum.isNaN = true)
      ∧ parseFloatChars [] = JSNum.nan
      ∧ parseFloatChars [ ' ' ] = JSNum.nan
      ∧ parseFloatChars [ 'a', 'b', 'c' ] = JSNum.nan :=
  c4_not_numeric_iff_nan exampleAbcInput rand0 rfl

/-- C5: whenever the raw request is absent or its element count is not
exactly 9, the handler fails with ShapeError and the result is not a
success. -/
theorem c5_shape_error (features : Option (List JSValue)) (rand : ℕ → ℚ)
    (h : ∀ l, features = some l → l.length ≠ 9) :
    predictHandler features rand = Except.error PredictError.ShapeError
      ∧ (predictHandler features rand).isOk = false := by
  match features with
  | none => exact ⟨rfl, rfl⟩
  | some fs =>
    have h9 : fs.length ≠ 9 := h fs rfl
    simp only [predictHandler]
    rw [if_pos h9]
    exact ⟨rfl, rfl⟩

/-- Witness for C5 at the spec's eight-element example request. -/
theorem c5_shape_error_witness :
    predictHandler (some exampleEightInput) rand0 = Except.error PredictError.ShapeError
      ∧ (predictHandler (some exampleEightInput) rand0).isOk = false :=
  c5_shape_error (some exampleEightInput) rand0 (fun l hl => by cases hl; decide)
